import Mathlib

/-!
Verification of the testing-relay program (src/main.go): a shallow embedding
of its admission policy (the `relay.RejectEvent` closure), its request
dispatcher (`handleRoot`) and its capability document, with theorems about
the spec's claims C1-C10.

Go machine integers are modelled as `Int` (no arithmetic near overflow occurs
in the embedded code); Go `len` on a string is its UTF-8 byte count, modelled
with `String.utf8ByteSize`; Go slices are Lean lists.
-/

/-- Embedding of `RelayConfig` (src/main.go lines 19-31). `Port`, `DBPath` and
`HTTPTimeout` are carried for completeness; the embedded operations do not
read them. -/
structure RelayConfig where
  port : Int
  dbPath : String
  httpTimeout : Int
  name : String
  description : String
  pubKey : String
  allowedKinds : List Int
  whitelistPubkeys : List String
  maxContentLength : Int
  maxEventTags : Int
  debug : Bool
deriving Repr, DecidableEq

/-- Embedding of `nostr.Event` as read by the admission policy: the closure
reads `Content`, `Tags`, `Kind` and `PubKey`; the remaining fields are carried
for completeness. A `nostr.Tag` is a `[]string`. -/
structure Event where
  id : String
  pubKey : String
  createdAt : Int
  kind : Int
  tags : List (List String)
  content : String
  sig : String
deriving Repr, DecidableEq

/-- Embedding of the generic `contains` helper (src/main.go lines 199-206):
linear scan with `==` on a comparable element type. -/
def contains {T : Type} [DecidableEq T] : List T → T → Bool
  | [], _ => false
  | s :: rest, item => if s = item then true else contains rest item

/-- Rendering of Go's `fmt.Sprintf("%v", xs)` for an `[]int`: elements
space-separated inside brackets, e.g. `[1 30023]`. -/
def goFmtIntSlice (xs : List Int) : String :=
  "[" ++ String.intercalate " " (xs.map toString) ++ "]"

/-- Embedding of the admission policy: the closure appended to
`relay.RejectEvent` in `main` (src/main.go lines 82-102). Returns the pair
`(reject, msg)`. -/
def rejectEvent (cfg : RelayConfig) (event : Event) : Bool × String :=
  if cfg.maxContentLength > 0 ∧ (event.content.utf8ByteSize : Int) > cfg.maxContentLength then
    (true, "blocked: content length exceeds maximum of " ++ toString cfg.maxContentLength)
  else if cfg.maxEventTags > 0 ∧ (event.tags.length : Int) > cfg.maxEventTags then
    (true, "blocked: number of tags exceeds maximum of " ++ toString cfg.maxEventTags)
  else if cfg.allowedKinds.length > 0 ∧ ¬ contains cfg.allowedKinds event.kind then
    (true, "blocked: event kind " ++ toString event.kind ++ " not allowed, allowed kinds: "
      ++ goFmtIntSlice cfg.allowedKinds)
  else if cfg.whitelistPubkeys.length > 0 ∧ ¬ contains cfg.whitelistPubkeys event.pubKey then
    (true, "blocked: pubkey not in whitelist")
  else
    (false, "")

/-- Per-character lower-casing by the Unicode simple case mapping, as Go's
`unicode.ToLower` performs it, on the fragment `handleRoot` can observe:
ASCII `A`-`Z` are lowered by `Char.toLower`, and the only two non-ASCII code
points whose Unicode simple lower case is an ASCII character are mapped
explicitly — U+0130 LATIN CAPITAL LETTER I WITH DOT ABOVE to `i` and U+212A
KELVIN SIGN to `k`. Every other character is kept; its Go lower case is never
an ASCII character, so this map agrees with Go's on whether the result equals
any given ASCII string. -/
def unicodeSimpleToLower (c : Char) : Char :=
  if c.val = 0x0130 then Char.ofNat 0x0069
  else if c.val = 0x212A then Char.ofNat 0x006B
  else Char.toLower c

/-- Embedding of `strings.ToLower` as used in `handleRoot` (src/main.go line
139): lower-case each character by the Unicode simple case mapping. Via
`unicodeSimpleToLower`, comparing the result with the ASCII literal
"websocket" — the sole use in the program — decides exactly as Go does for
every input string. (Lean's own `String.toLower` is ASCII-only, and its
`mapAux` recursion does not reduce in the kernel.) -/
def stringsToLower (s : String) : String := ⟨s.data.map unicodeSimpleToLower⟩

/-- The three branches of the request dispatcher (spec section 4.2). -/
inductive Route where
  | streamingHandoff
  | capabilityDocument
  | statusPage
deriving Repr, DecidableEq

/-- Embedding of the routing decision of `handleRoot` (src/main.go lines
138-145, 160): a request is represented by its `Upgrade` and `Accept` header
values (`r.Header.Get` yields `""` when the header is absent). -/
def route (upgradeHeader : String) (acceptHeader : String) : Route :=
  if stringsToLower upgradeHeader = "websocket" then
    Route.streamingHandoff
  else if acceptHeader = "application/json" then
    Route.capabilityDocument
  else
    Route.statusPage

/-- The nested `config` object of the capability document
(src/main.go lines 151-157). -/
structure CapabilityConfig where
  allowed_kinds : List Int
  whitelist_enabled : Bool
  max_content_length : Int
  max_event_tags : Int
  debug_enabled : Bool
deriving Repr, DecidableEq

/-- The capability document encoded by the `"application/json"` branch of
`handleRoot` (src/main.go lines 147-158). -/
structure CapabilityDocument where
  name : String
  description : String
  pubkey : String
  config : CapabilityConfig
deriving Repr, DecidableEq

/-- Embedding of the capability-document construction in `handleRoot`
(src/main.go lines 147-158): every field is drawn from the configuration. -/
def capabilityDocument (cfg : RelayConfig) : CapabilityDocument :=
  { name := cfg.name
    description := cfg.description
    pubkey := cfg.pubKey
    config :=
      { allowed_kinds := cfg.allowedKinds
        whitelist_enabled := decide (cfg.whitelistPubkeys.length > 0)
        max_content_length := cfg.maxContentLength
        max_event_tags := cfg.maxEventTags
        debug_enabled := cfg.debug } }

/-- `contains` decides list membership. -/
theorem contains_eq_true_iff {T : Type} [DecidableEq T] (l : List T) (x : T) :
    contains l x = true ↔ x ∈ l := by
  induction l with
  | nil => simp [contains]
  | cons a rest ih =>
    simp only [contains]
    by_cases h : a = x
    · subst h
      simp
    · rw [if_neg h, ih]
      constructor
      · exact fun hx => List.mem_cons_of_mem a hx
      · intro hx
        rcases List.mem_cons.mp hx with h1 | h2
        · exact absurd h1.symm h
        · exact h2

/-- Sample configuration for concrete witnesses: the spec section 8 scenario
`{maxContentLength:100, allowedKinds:[1,30023]}`. -/
def cfgA : RelayConfig :=
  { port := 3334, dbPath := "./khatru-sqlite.db", httpTimeout := 30
    name := "Debug Khatru Relay", description := "d", pubKey := ""
    allowedKinds := [1, 30023], whitelistPubkeys := []
    maxContentLength := 100, maxEventTags := 2000, debug := false }

/-- Sample event for concrete witnesses: the spec section 8 scenario
`{kind:1, content:"hi", tags:[]}`. -/
def evA : Event :=
  { id := "", pubKey := "xyz", createdAt := 0, kind := 1
    tags := [], content := "hi", sig := "" }

/-- Scenario from spec section 8: the compliant event is accepted. -/
theorem scenario_compliant_accepted : rejectEvent cfgA evA = (false, "") := by decide

/-- Scenario from spec section 8: kind 9999 is rejected with a reason that
mentions the kind and enumerates the allowed kinds. -/
theorem scenario_kind_rejected : rejectEvent cfgA { evA with kind := 9999 } =
    (true, "blocked: event kind 9999 not allowed, allowed kinds: [1 30023]") := by decide

/-- Scenario: an upgrade header spelled with U+212A KELVIN SIGN lower-cases to
"websocket" under the Unicode simple case mapping, exactly as under Go's
`strings.ToLower`, so the dispatcher hands the request off to the relay engine
whatever the accept header says. -/
theorem scenario_kelvin_upgrade_streams :
    stringsToLower "websoc\u212Aet" = "websocket" ∧
    route "websoc\u212Aet" "application/json" = Route.streamingHandoff := by
  refine ⟨by decide, by decide⟩

/-- Scenario: a non-ASCII upgrade header whose lower case is not "websocket"
falls through to the accept switch. -/
theorem scenario_nonascii_upgrade_falls_through :
    route "websocÄet" "" = Route.statusPage := by decide

/-- C1: the admission policy applies its rules in the fixed order
content-length, tag-count, allowed-kinds, whitelist; the first failing rule
determines the returned reason regardless of whether later rules would also
fail. -/
theorem admission_rule_order (cfg : RelayConfig) (e : Event) :
    (cfg.maxContentLength > 0 ∧ (e.content.utf8ByteSize : Int) > cfg.maxContentLength →
      rejectEvent cfg e =
        (true, "blocked: content length exceeds maximum of " ++ toString cfg.maxContentLength)) ∧
    (¬ (cfg.maxContentLength > 0 ∧ (e.content.utf8ByteSize : Int) > cfg.maxContentLength) →
      cfg.maxEventTags > 0 ∧ (e.tags.length : Int) > cfg.maxEventTags →
      rejectEvent cfg e =
        (true, "blocked: number of tags exceeds maximum of " ++ toString cfg.maxEventTags)) ∧
    (¬ (cfg.maxContentLength > 0 ∧ (e.content.utf8ByteSize : Int) > cfg.maxContentLength) →
      ¬ (cfg.maxEventTags > 0 ∧ (e.tags.length : Int) > cfg.maxEventTags) →
      cfg.allowedKinds.length > 0 ∧ ¬ contains cfg.allowedKinds e.kind →
      rejectEvent cfg e =
        (true, "blocked: event kind " ++ toString e.kind ++ " not allowed, allowed kinds: "
          ++ goFmtIntSlice cfg.allowedKinds)) ∧
    (¬ (cfg.maxContentLength > 0 ∧ (e.content.utf8ByteSize : Int) > cfg.maxContentLength) →
      ¬ (cfg.maxEventTags > 0 ∧ (e.tags.length : Int) > cfg.maxEventTags) →
      ¬ (cfg.allowedKinds.length > 0 ∧ ¬ contains cfg.allowedKinds e.kind) →
      cfg.whitelistPubkeys.length > 0 ∧ ¬ contains cfg.whitelistPubkeys e.pubKey →
      rejectEvent cfg e = (true, "blocked: pubkey not in whitelist")) := by
  unfold rejectEvent
  refine ⟨fun h1 => ?_, fun n1 h2 => ?_, fun n1 n2 h3 => ?_, fun n1 n2 n3 h4 => ?_⟩
  · rw [if_pos h1]
  · rw [if_neg n1, if_pos h2]
  · rw [if_neg n1, if_neg n2, if_pos h3]
  · rw [if_neg n1, if_neg n2, if_neg n3, if_pos h4]

/-- Witness for C1: one concrete instance per rule, where later rules would
also fail yet the first failing rule's reason is returned. -/
theorem admission_rule_order_witness :
    rejectEvent { cfgA with maxContentLength := 1, maxEventTags := 1, whitelistPubkeys := ["abc"] }
      { evA with kind := 9999, tags := [["e"], ["p"]] } =
      (true, "blocked: content length exceeds maximum of 1") ∧
    rejectEvent { cfgA with maxEventTags := 1, whitelistPubkeys := ["abc"] }
      { evA with kind := 9999, tags := [["e"], ["p"]] } =
      (true, "blocked: number of tags exceeds maximum of 1") ∧
    rejectEvent { cfgA with whitelistPubkeys := ["abc"] } { evA with kind := 9999 } =
      (true, "blocked: event kind 9999 not allowed, allowed kinds: [1 30023]") ∧
    rejectEvent { cfgA with whitelistPubkeys := ["abc"] } evA =
      (true, "blocked: pubkey not in whitelist") :=
  ⟨(admission_rule_order _ _).1 (by decide),
   (admission_rule_order _ _).2.1 (by decide) (by decide),
   (admission_rule_order _ _).2.2.1 (by decide) (by decide) (by decide),
   (admission_rule_order _ _).2.2.2 (by decide) (by decide) (by decide) (by decide)⟩

/-- C2: an event within the content-length limit (when positive), within the
tag-count limit (when positive), of an allowed kind (when the list is
non-empty) and from a whitelisted pubkey (when the whitelist is non-empty) is
accepted. -/
theorem admission_accepts_compliant (cfg : RelayConfig) (e : Event)
    (h1 : cfg.maxContentLength > 0 → (e.content.utf8ByteSize : Int) ≤ cfg.maxContentLength)
    (h2 : cfg.maxEventTags > 0 → (e.tags.length : Int) ≤ cfg.maxEventTags)
    (h3 : cfg.allowedKinds ≠ [] → e.kind ∈ cfg.allowedKinds)
    (h4 : cfg.whitelistPubkeys ≠ [] → e.pubKey ∈ cfg.whitelistPubkeys) :
    rejectEvent cfg e = (false, "") := by
  unfold rejectEvent
  have n1 : ¬ (cfg.maxContentLength > 0 ∧ (e.content.utf8ByteSize : Int) > cfg.maxContentLength) :=
    fun hc => absurd hc.2 (not_lt.mpr (h1 hc.1))
  have n2 : ¬ (cfg.maxEventTags > 0 ∧ (e.tags.length : Int) > cfg.maxEventTags) :=
    fun hc => absurd hc.2 (not_lt.mpr (h2 hc.1))
  have n3 : ¬ (cfg.allowedKinds.length > 0 ∧ ¬ contains cfg.allowedKinds e.kind) :=
    fun hc => hc.2 ((contains_eq_true_iff _ _).mpr (h3 (List.length_pos.mp hc.1)))
  have n4 : ¬ (cfg.whitelistPubkeys.length > 0 ∧ ¬ contains cfg.whitelistPubkeys e.pubKey) :=
    fun hc => hc.2 ((contains_eq_true_iff _ _).mpr (h4 (List.length_pos.mp hc.1)))
  rw [if_neg n1, if_neg n2, if_neg n3, if_neg n4]

/-- Witness for C2: a compliant event against a configuration with all four
restrictions active is accepted. -/
theorem admission_accepts_compliant_witness :
    rejectEvent { cfgA with whitelistPubkeys := ["abc", "def"] }
      { evA with pubKey := "abc" } = (false, "") :=
  admission_accepts_compliant _ _ (by decide) (by decide) (by decide) (by decide)

/-- C3: every rejection produced by the whitelist rule carries one fixed
literal reason, independent of the event, its pubkey and the whitelist's
members. -/
theorem whitelist_reason_constant (cfg : RelayConfig) (e : Event)
    (n1 : ¬ (cfg.maxContentLength > 0 ∧ (e.content.utf8ByteSize : Int) > cfg.maxContentLength))
    (n2 : ¬ (cfg.maxEventTags > 0 ∧ (e.tags.length : Int) > cfg.maxEventTags))
    (n3 : ¬ (cfg.allowedKinds.length > 0 ∧ ¬ contains cfg.allowedKinds e.kind))
    (h4 : cfg.whitelistPubkeys ≠ [])
    (h5 : e.pubKey ∉ cfg.whitelistPubkeys) :
    rejectEvent cfg e = (true, "blocked: pubkey not in whitelist") := by
  unfold rejectEvent
  have h4' : cfg.whitelistPubkeys.length > 0 ∧ ¬ contains cfg.whitelistPubkeys e.pubKey :=
    ⟨List.length_pos.mpr h4, fun hc => h5 ((contains_eq_true_iff _ _).mp hc)⟩
  rw [if_neg n1, if_neg n2, if_neg n3, if_pos h4']

/-- Witness for C3: two whitelist rejections with different events and
different whitelists yield the same fixed reason. -/
theorem whitelist_reason_constant_witness :
    rejectEvent { cfgA with whitelistPubkeys := ["abc"] } evA =
      (true, "blocked: pubkey not in whitelist") ∧
    rejectEvent { cfgA with whitelistPubkeys := ["k1", "k2"] }
      { evA with pubKey := "other", content := "x" } =
      (true, "blocked: pubkey not in whitelist") :=
  ⟨whitelist_reason_constant _ _ (by decide) (by decide) (by decide) (by decide) (by decide),
   whitelist_reason_constant _ _ (by decide) (by decide) (by decide) (by decide) (by decide)⟩

/-- C4: a content-length limit of 0 disables the content check (the verdict is
invariant under replacing the content), and a tag limit of 0 disables the
tag-count check (the verdict is invariant under replacing the tags). -/
theorem zero_limits_disable_size_checks (cfg : RelayConfig) (e : Event) :
    (cfg.maxContentLength = 0 →
      ∀ c : String, rejectEvent cfg { e with content := c } = rejectEvent cfg e) ∧
    (cfg.maxEventTags = 0 →
      ∀ t : List (List String), rejectEvent cfg { e with tags := t } = rejectEvent cfg e) := by
  constructor
  · intro h c
    unfold rejectEvent
    have n : ∀ ev : Event, ¬ (cfg.maxContentLength > 0 ∧
        (ev.content.utf8ByteSize : Int) > cfg.maxContentLength) := by
      intro ev hc
      rw [h] at hc
      exact absurd hc.1 (lt_irrefl 0)
    rw [if_neg (n { e with content := c }), if_neg (n e)]
  · intro h t
    unfold rejectEvent
    have n : ∀ ev : Event, ¬ (cfg.maxEventTags > 0 ∧
        (ev.tags.length : Int) > cfg.maxEventTags) := by
      intro ev hc
      rw [h] at hc
      exact absurd hc.1 (lt_irrefl 0)
    by_cases h1 : cfg.maxContentLength > 0 ∧ (e.content.utf8ByteSize : Int) > cfg.maxContentLength
    · rw [if_pos h1, if_pos h1]
    · rw [if_neg h1, if_neg h1, if_neg (n { e with tags := t }), if_neg (n e)]

/-- Witness for C4: with both limits 0, a huge content and a tag list do not
change the verdict. -/
theorem zero_limits_disable_size_checks_witness :
    rejectEvent { cfgA with maxContentLength := 0 }
        { evA with content := "0123456789012345678901234567890123456789" } =
      rejectEvent { cfgA with maxContentLength := 0 } evA ∧
    rejectEvent { cfgA with maxEventTags := 0 } { evA with tags := [["a"], ["b"], ["c"]] } =
      rejectEvent { cfgA with maxEventTags := 0 } evA :=
  ⟨(zero_limits_disable_size_checks { cfgA with maxContentLength := 0 } evA).1 (by decide)
      "0123456789012345678901234567890123456789",
   (zero_limits_disable_size_checks { cfgA with maxEventTags := 0 } evA).2 (by decide)
      [["a"], ["b"], ["c"]]⟩

/-- C5: the admission policy is a total function (by construction in this
embedding) and its verdict is well-formed: it either rejects, or it returns
exactly the accepting verdict whose reason is the empty string. -/
theorem verdict_total_wellformed (cfg : RelayConfig) (e : Event) :
    (rejectEvent cfg e).1 = true ∨ rejectEvent cfg e = (false, "") := by
  unfold rejectEvent
  by_cases h1 : cfg.maxContentLength > 0 ∧ (e.content.utf8ByteSize : Int) > cfg.maxContentLength
  · rw [if_pos h1]; exact Or.inl rfl
  rw [if_neg h1]
  by_cases h2 : cfg.maxEventTags > 0 ∧ (e.tags.length : Int) > cfg.maxEventTags
  · rw [if_pos h2]; exact Or.inl rfl
  rw [if_neg h2]
  by_cases h3 : cfg.allowedKinds.length > 0 ∧ ¬ contains cfg.allowedKinds e.kind
  · rw [if_pos h3]; exact Or.inl rfl
  rw [if_neg h3]
  by_cases h4 : cfg.whitelistPubkeys.length > 0 ∧ ¬ contains cfg.whitelistPubkeys e.pubKey
  · rw [if_pos h4]; exact Or.inl rfl
  rw [if_neg h4]; exact Or.inr rfl

/-- C6: a request whose upgrade header case-insensitively equals "websocket"
is routed to the streaming handoff, whatever the accept header says. -/
theorem upgrade_routes_to_streaming (u a : String)
    (h : stringsToLower u = "websocket") :
    route u a = Route.streamingHandoff := by
  unfold route
  rw [if_pos h]

/-- Witness for C6: a mixed-case upgrade header wins over a JSON accept
header. -/
theorem upgrade_routes_to_streaming_witness :
    stringsToLower "WebSocket" = "websocket" ∧
    route "WebSocket" "application/json" = Route.streamingHandoff :=
  ⟨by decide, upgrade_routes_to_streaming "WebSocket" "application/json" (by decide)⟩

/-- Counterexample to C7: the upgrade header "foo" is non-empty and is not a
well-formed websocket upgrade value, yet the dispatcher does not select the
streaming handoff — it falls through to the status page. -/
theorem malformed_upgrade_counterexample :
    "foo" ≠ "" ∧ stringsToLower "foo" ≠ "websocket" ∧
    route "foo" "" = Route.statusPage ∧
    route "foo" "" ≠ Route.streamingHandoff := by
  refine ⟨by decide, by decide, by decide, by decide⟩

/-- C7 amended: a request whose upgrade header does not case-insensitively
equal "websocket" — malformed or absent alike — is never handed off; it falls
through to the capability-document or status-page branches. -/
theorem malformed_upgrade_falls_through (u a : String)
    (h : stringsToLower u ≠ "websocket") :
    route u a ≠ Route.streamingHandoff ∧
    (route u a = Route.capabilityDocument ∨ route u a = Route.statusPage) := by
  unfold route
  rw [if_neg h]
  by_cases ha : a = "application/json"
  · rw [if_pos ha]
    exact ⟨by simp, Or.inl rfl⟩
  · rw [if_neg ha]
    exact ⟨by simp, Or.inr rfl⟩

/-- Witness for C7 amended: the malformed upgrade value "foo" with a JSON
accept header reaches the capability document, not the handoff. -/
theorem malformed_upgrade_falls_through_witness :
    stringsToLower "foo" ≠ "websocket" ∧
    route "foo" "application/json" ≠ Route.streamingHandoff ∧
    (route "foo" "application/json" = Route.capabilityDocument ∨
      route "foo" "application/json" = Route.statusPage) :=
  ⟨by decide,
   (malformed_upgrade_falls_through "foo" "application/json" (by decide)).1,
   (malformed_upgrade_falls_through "foo" "application/json" (by decide)).2⟩

/-- C8: the capability document exposes exactly the admission policy's active
limits: `allowed_kinds`, `max_content_length`, `max_event_tags` and
`debug_enabled` equal the configuration's values, and `whitelist_enabled`
holds exactly when the whitelist is non-empty. (The document's type has no
field for the whitelist's members, so they never appear in it.) -/
theorem capability_doc_matches_config (cfg : RelayConfig) :
    (capabilityDocument cfg).config.allowed_kinds = cfg.allowedKinds ∧
    ((capabilityDocument cfg).config.whitelist_enabled = true ↔ cfg.whitelistPubkeys ≠ []) ∧
    (capabilityDocument cfg).config.max_content_length = cfg.maxContentLength ∧
    (capabilityDocument cfg).config.max_event_tags = cfg.maxEventTags ∧
    (capabilityDocument cfg).config.debug_enabled = cfg.debug := by
  refine ⟨rfl, ?_, rfl, rfl, rfl⟩
  simp [capabilityDocument, List.length_pos]

/-- C9: a non-upgrade request is routed by its accept header: exactly
"application/json" yields the capability document, anything else (the absent
header included, read as "") yields the status page. -/
theorem nonupgrade_routes_by_accept (u a : String)
    (h : stringsToLower u ≠ "websocket") :
    (a = "application/json" → route u a = Route.capabilityDocument) ∧
    (a ≠ "application/json" → route u a = Route.statusPage) := by
  unfold route
  rw [if_neg h]
  constructor
  · intro ha
    rw [if_pos ha]
  · intro ha
    rw [if_neg ha]

/-- Witness for C9: no upgrade header with a JSON accept header reaches the
capability document; no accept header at all reaches the status page. -/
theorem nonupgrade_routes_by_accept_witness :
    route "" "application/json" = Route.capabilityDocument ∧
    route "" "" = Route.statusPage :=
  ⟨(nonupgrade_routes_by_accept "" "application/json" (by decide)).1 (by decide),
   (nonupgrade_routes_by_accept "" "" (by decide)).2 (by decide)⟩

/-- C10: a negative content-length limit behaves exactly like 0 (the check is
disabled and the verdict is invariant under replacing the content), and a
negative tag limit likewise behaves exactly like 0. -/
theorem negative_limits_behave_like_zero (cfg : RelayConfig) (e : Event) :
    (cfg.maxContentLength < 0 →
      rejectEvent cfg e = rejectEvent { cfg with maxContentLength := 0 } e ∧
      ∀ c : String, rejectEvent cfg { e with content := c } = rejectEvent cfg e) ∧
    (cfg.maxEventTags < 0 →
      rejectEvent cfg e = rejectEvent { cfg with maxEventTags := 0 } e ∧
      ∀ t : List (List String), rejectEvent cfg { e with tags := t } = rejectEvent cfg e) := by
  constructor
  · intro h
    have n : ∀ ev : Event, ¬ (cfg.maxContentLength > 0 ∧
        (ev.content.utf8ByteSize : Int) > cfg.maxContentLength) :=
      fun ev hc => absurd (lt_trans h hc.1) (lt_irrefl _)
    have n0 : ∀ ev : Event, ¬ (({ cfg with maxContentLength := 0 } : RelayConfig).maxContentLength > 0 ∧
        (ev.content.utf8ByteSize : Int) >
          ({ cfg with maxContentLength := 0 } : RelayConfig).maxContentLength) :=
      fun ev hc => absurd hc.1 (lt_irrefl 0)
    constructor
    · unfold rejectEvent
      rw [if_neg (n e), if_neg (n0 e)]
    · intro c
      unfold rejectEvent
      rw [if_neg (n { e with content := c }), if_neg (n e)]
  · intro h
    have n : ∀ ev : Event, ¬ (cfg.maxEventTags > 0 ∧
        (ev.tags.length : Int) > cfg.maxEventTags) :=
      fun ev hc => absurd (lt_trans h hc.1) (lt_irrefl _)
    have n0 : ∀ ev : Event, ¬ (({ cfg with maxEventTags := 0 } : RelayConfig).maxEventTags > 0 ∧
        (ev.tags.length : Int) > ({ cfg with maxEventTags := 0 } : RelayConfig).maxEventTags) :=
      fun ev hc => absurd hc.1 (lt_irrefl 0)
    constructor
    · unfold rejectEvent
      by_cases h1 : cfg.maxContentLength > 0 ∧ (e.content.utf8ByteSize : Int) > cfg.maxContentLength
      · rw [if_pos h1, if_pos h1]
      · rw [if_neg h1, if_neg h1, if_neg (n e), if_neg (n0 e)]
    · intro t
      unfold rejectEvent
      by_cases h1 : cfg.maxContentLength > 0 ∧ (e.content.utf8ByteSize : Int) > cfg.maxContentLength
      · rw [if_pos h1, if_pos h1]
      · rw [if_neg h1, if_neg h1, if_neg (n { e with tags := t }), if_neg (n e)]

/-- Witness for C10: with limits -1, an over-long content and an over-long tag
list leave the verdict unchanged, and the verdict agrees with the limit-0
configuration. -/
theorem negative_limits_behave_like_zero_witness :
    (rejectEvent { cfgA with maxContentLength := -1 } evA =
      rejectEvent { cfgA with maxContentLength := 0 } evA ∧
    rejectEvent { cfgA with maxContentLength := -1 } { evA with content := "xxxx" } =
      rejectEvent { cfgA with maxContentLength := -1 } evA) ∧
    (rejectEvent { cfgA with maxEventTags := -1 } evA =
      rejectEvent { cfgA with maxEventTags := 0 } evA ∧
    rejectEvent { cfgA with maxEventTags := -1 } { evA with tags := [["a"], ["b"]] } =
      rejectEvent { cfgA with maxEventTags := -1 } evA) :=
  ⟨⟨((negative_limits_behave_like_zero { cfgA with maxContentLength := -1 } evA).1 (by decide)).1,
    ((negative_limits_behave_like_zero { cfgA with maxContentLength := -1 } evA).1 (by decide)).2
      "xxxx"⟩,
   ⟨((negative_limits_behave_like_zero { cfgA with maxEventTags := -1 } evA).2 (by decide)).1,
    ((negative_limits_behave_like_zero { cfgA with maxEventTags := -1 } evA).2 (by decide)).2
      [["a"], ["b"]]⟩⟩
